import Mathlib

/-!
Shallow embedding of the interactive state engine of `src/web/src/App.tsx`
(floodmap.app): map viewport state, the browsing/reporting mode toggle, the
hazard report form, the SWR-cached hazard collection with its submission
protocol, and the popup longitude-normalization loop.  JavaScript numbers are
modelled as rationals; dynamically-typed JSON-ish values as the `Js` type.
-/

/-- Entries of the `hazardOptions` list (source `interface Option`; the name
`Option` is taken in Lean, so the structure is called `SelectOption`). -/
structure SelectOption where
  value : String
  label : String
deriving DecidableEq, Repr

/-- Source `hazardOptions` (App.tsx lines 20-24): the fixed category set. -/
def hazardOptions : List SelectOption :=
  [⟨"FLOODED_ROAD", "Flooded Road"⟩, ⟨"TREE_DOWN", "Tree Down"⟩, ⟨"OTHER", "Other"⟩]

/-- Source `MAX_HEATMAP_LEVEL` (App.tsx line 26). -/
def MAX_HEATMAP_LEVEL : ℚ := 9

/-- Input of a mapbox `interpolate` expression: the zoom level, a feature
property (`get`), or the heatmap density. -/
inductive PaintInput where
  | zoom
  | get (prop : String)
  | heatmapDensity
deriving DecidableEq, Repr

/-- Output values appearing at interpolation stops: numbers or color strings. -/
inductive PaintValue where
  | num (q : ℚ)
  | color (s : String)
deriving DecidableEq, Repr

/-- A mapbox style expression of the shape used by `heatmapLayer`:
`['interpolate', ['linear'], input, stop₁, value₁, ...]`. -/
inductive PaintExpr where
  | interpolateLinear (input : PaintInput) (stops : List (ℚ × PaintValue))
deriving DecidableEq, Repr

/-- The `paint` block of the heatmap layer (App.tsx lines 32-54). -/
structure HeatmapPaint where
  heatmapWeight : PaintExpr
  heatmapIntensity : PaintExpr
  heatmapColor : PaintExpr
  heatmapRadius : PaintExpr
  heatmapOpacity : PaintExpr
deriving DecidableEq, Repr

/-- The fields of the `heatmapLayer` constant relevant to its configuration. -/
structure HeatmapLayerDef where
  id : String
  maxzoom : ℚ
  type : String
  paint : HeatmapPaint
deriving DecidableEq, Repr

/-- Source `heatmapLayer` (App.tsx lines 28-55), embedded field by field. -/
def heatmapLayer : HeatmapLayerDef :=
  { id := "heatmap"
    maxzoom := MAX_HEATMAP_LEVEL
    type := "heatmap"
    paint :=
      { heatmapWeight := .interpolateLinear (.get "mag") [(0, .num 0), (6, .num 1)]
        heatmapIntensity := .interpolateLinear .zoom [(0, .num 1), (MAX_HEATMAP_LEVEL, .num 3)]
        heatmapColor := .interpolateLinear .heatmapDensity
          [(0, .color "rgba(33,102,172,0)"), (0.2, .color "rgb(103,169,207)"),
           (0.4, .color "rgb(209,229,240)"), (0.6, .color "rgb(253,219,199)"),
           (0.8, .color "rgb(239,138,98)"), (0.9, .color "rgb(255,201,101)")]
        heatmapRadius := .interpolateLinear .zoom [(0, .num 2), (MAX_HEATMAP_LEVEL, .num 20)]
        heatmapOpacity := .interpolateLinear .zoom [(7, .num 1), (MAX_HEATMAP_LEVEL, .num 0)] } }

/-- A dynamically-typed JavaScript value, as needed for the SWR cache contents
flowing through `submitHazardForm`'s `mutate` updater. -/
inductive Js where
  | undefined
  | jsBool (b : Bool)
  | num (q : ℚ)
  | str (s : String)
  | arr (elems : List Js)
  | obj (fields : List (String × Js))

/-- Property access `v.k`: first matching key of an object, `undefined` when
the key is absent or the value is not an object. -/
def Js.getField (v : Js) (k : String) : Js :=
  match v with
  | .obj fields =>
      match fields.find? (fun p => p.1 == k) with
      | some p => p.2
      | none => .undefined
  | _ => .undefined

/-- Array spread `[...v]`: succeeds on arrays; spreading a non-iterable value
(in particular `undefined`) throws a TypeError. -/
def Js.spreadElems (v : Js) : Except String (List Js) :=
  match v with
  | .arr elems => .ok elems
  | _ => .error "TypeError: value is not iterable"

/-- Toast notifications emitted by the handlers (`react-hot-toast`). -/
inductive Toast where
  | error (msg : String)
  | loading (msg : String)
deriving DecidableEq, Repr

/-- The component state of `App` (App.tsx lines 119-128): the six `useState`
hooks plus the SWR-cached `/hazards` response `data`. -/
structure AppState where
  drawPoint : Bool
  lng : ℚ
  lat : ℚ
  hazardType : SelectOption
  accessToken : Option String
  notes : String
  data : Js

/-- The `viewState` payload of a `ViewStateChangeEvent` as read by the app. -/
structure EventViewState where
  latitude : ℚ
  longitude : ℚ
  zoom : ℚ
deriving DecidableEq, Repr

/-- A map-engine viewport-change event. -/
structure ViewStateChangeEvent where
  viewState : EventViewState
deriving DecidableEq, Repr

/-- Source `updateMapCenterCoordinates` (App.tsx lines 148-151): stores the
event's latitude and longitude via `setLat`/`setLng`. -/
def updateMapCenterCoordinates (event : ViewStateChangeEvent) (s : AppState) : AppState :=
  { s with lat := event.viewState.latitude, lng := event.viewState.longitude }

/-- Source `handleHazardOptionSelected` (App.tsx lines 153-161): clears the
notes, then looks the value up in `hazardOptions` and, when found, replaces
the selected hazard type. -/
def handleHazardOptionSelected (value : String) (s : AppState) : AppState :=
  let s1 := { s with notes := "" }
  match hazardOptions.find? (fun option => option.value == value) with
  | some option => { s1 with hazardType := option }
  | none => s1

/-- Source `resetHazardForm` (App.tsx lines 163-165): `setDrawPoint(false)`. -/
def resetHazardForm (s : AppState) : AppState :=
  { s with drawPoint := false }

/-- Source `toggleDrawPoint` (App.tsx lines 167-176): unauthenticated users
get one error toast and no state change; otherwise the flag is toggled. -/
def toggleDrawPoint (isAuthenticated : Bool) (s : AppState) : AppState × List Toast :=
  if !isAuthenticated then
    (s, [Toast.error "Login to add a hazard."])
  else
    ({ s with drawPoint := !s.drawPoint }, [])

/-- The `POST /hazards` request issued by `SaveHazard` (App.tsx lines 80-88):
its body fields and bearer token. -/
structure CreateRequest where
  lat : ℚ
  lng : ℚ
  hazardType : String
  notes : String
  token : String
deriving DecidableEq, Repr

/-- Source `submitHazardForm` (App.tsx lines 178-214), synchronous phase.
With no access token it shows one error toast and returns.  Otherwise it
calls `mutate('/hazards', async () => ..., { revalidate: true })` — which
starts the updater (issuing the `SaveHazard` request and a loading toast)
but, having been given an async updater and no `optimisticData`, leaves the
cached `data` value unchanged until the updater's promise resolves — and then
calls `resetHazardForm()`.  The returned triple is the post-call state, the
toasts shown synchronously, and the create request issued (if any). -/
def submitHazardForm (s : AppState) : AppState × List Toast × Option CreateRequest :=
  match s.accessToken with
  | none => (s, [Toast.error "Login to add hazards."], none)
  | some token =>
      (resetHazardForm s, [Toast.loading "Loading..."],
       some ⟨s.lat, s.lng, s.hazardType.value, s.notes, token⟩)

/-- Body of the async updater passed to `mutate` in `submitHazardForm`
(App.tsx lines 207-210), evaluated after `SaveHazard` resolves to
`newHazard`: `{ type: data.type, features: [...data.features, newHazard] }`.
Spreading `data.features` throws when that property is not an array. -/
def hazardsUpdater (data newHazard : Js) : Except String Js :=
  match (data.getField "features").spreadElems with
  | .ok fs => .ok (.obj [("type", data.getField "type"), ("features", .arr (fs ++ [newHazard]))])
  | .error e => .error e

/-- Cache contents after the `mutate` updater settles: its result on success;
the previous cached value when the updater threw. -/
def resolveHazardsMutation (cache newHazard : Js) : Js :=
  match hazardsUpdater cache newHazard with
  | .ok v => v
  | .error _ => cache

/-- The feature sequence the map renders (App.tsx lines 324-328): the geojson
`Source` is fed `data.geojson`, whose `features` array feeds both layers. -/
def renderedFeatures (data : Js) : List Js :=
  match (data.getField "geojson").getField "features" with
  | .arr elems => elems
  | _ => []

/-- One iteration of the popup longitude loop (App.tsx line 242):
`coordinates[0] += e.lngLat.lng > coordinates[0] ? 360 : -360`. -/
def lngStep (clickLng c : ℚ) : ℚ :=
  c + (if c < clickLng then 360 else -360)

lemma abs_sub_lngStep (clickLng c : ℚ) :
    |clickLng - lngStep clickLng c| = |(|clickLng - c|) - 360| := by
  unfold lngStep
  by_cases hc : c < clickLng
  · rw [if_pos hc, abs_of_pos (show (0:ℚ) < clickLng - c by linarith)]
    congr 1
    ring
  · push_neg at hc
    rw [if_neg (not_lt.mpr hc), abs_of_nonpos (show clickLng - c ≤ 0 by linarith),
      show clickLng - (c + -360) = clickLng - c + 360 by ring,
      show -(clickLng - c) - 360 = -(clickLng - c + 360) by ring, abs_neg]

lemma ceil_abs_sub_360_lt (x : ℚ) (hx : 180 < x) :
    (⌈|x - 360|⌉).toNat < (⌈x⌉).toNat := by
  rcases le_or_lt 360 x with h3 | h3
  · rw [abs_of_nonneg (show (0:ℚ) ≤ x - 360 by linarith),
      show (360:ℚ) = ((360:ℤ):ℚ) by norm_num, Int.ceil_sub_int]
    have h360 : (359:ℤ) < ⌈x⌉ := by
      rw [Int.lt_ceil]
      push_cast
      linarith
    omega
  · rw [abs_of_nonpos (show x - 360 ≤ 0 by linarith)]
    have h1 : ⌈-(x - 360)⌉ ≤ (180:ℤ) := by
      rw [Int.ceil_le]
      push_cast
      linarith
    have h2 : (180:ℤ) < ⌈x⌉ := by
      rw [Int.lt_ceil]
      push_cast
      linarith
    omega

lemma lngStep_measure_lt (clickLng c : ℚ) (h : 180 < |clickLng - c|) :
    (⌈|clickLng - lngStep clickLng c|⌉).toNat < (⌈|clickLng - c|⌉).toNat := by
  rw [abs_sub_lngStep]
  exact ceil_abs_sub_360_lt _ h

/-- The popup longitude-normalization loop (App.tsx lines 241-243): starting
from the feature longitude, repeatedly add or subtract 360 (toward the click
longitude) while the gap exceeds 180. -/
def normalizeLng (clickLng c : ℚ) : ℚ :=
  if h : 180 < |clickLng - c| then normalizeLng clickLng (lngStep clickLng c) else c
termination_by (⌈|clickLng - c|⌉).toNat
decreasing_by exact lngStep_measure_lt clickLng c h

lemma normalizeLng_gap (clickLng c : ℚ) : |clickLng - normalizeLng clickLng c| ≤ 180 := by
  by_cases h : 180 < |clickLng - c|
  · rw [normalizeLng, dif_pos h]
    exact normalizeLng_gap clickLng (lngStep clickLng c)
  · rw [normalizeLng, dif_neg h]
    exact not_lt.mp h
termination_by (⌈|clickLng - c|⌉).toNat
decreasing_by exact lngStep_measure_lt clickLng c h

lemma normalizeLng_add_int (clickLng c : ℚ) :
    ∃ k : ℤ, normalizeLng clickLng c = c + 360 * k := by
  by_cases h : 180 < |clickLng - c|
  · obtain ⟨k, hk⟩ := normalizeLng_add_int clickLng (lngStep clickLng c)
    rw [normalizeLng, dif_pos h, hk]
    unfold lngStep
    by_cases hc : c < clickLng
    · exact ⟨k + 1, by rw [if_pos hc]; push_cast; ring⟩
    · exact ⟨k - 1, by rw [if_neg hc]; push_cast; ring⟩
  · exact ⟨0, by rw [normalizeLng, dif_neg h]; ring⟩
termination_by (⌈|clickLng - c|⌉).toNat
decreasing_by exact lngStep_measure_lt clickLng c h


/-- Modelled from the spec: ViewStateController's state record
`{ lat, lng, zoom }` (spec section 3).  The rendered component state (the
`useState` hooks in App.tsx) has no zoom field; the spec-side record is
embedded separately so the two viewport-change behaviours can be compared. -/
structure SpecViewState where
  lat : ℚ
  lng : ℚ
  zoom : ℚ
deriving DecidableEq, Repr

/-- Modelled from the spec: `onViewportChange(newLat, newLng, newZoom)`
unconditionally overwrites ViewState (spec section 4.1). -/
def specOnViewportChange (newLat newLng newZoom : ℚ) (_v : SpecViewState) : SpecViewState :=
  ⟨newLat, newLng, newZoom⟩

/-- One hazard feature as served inside `data.geojson.features`. -/
def c1Feature : Js :=
  Js.obj [("type", .str "Feature"),
          ("properties", .obj [("hazardType", .str "TREE_DOWN")]),
          ("geometry", .obj [("type", .str "Point"), ("coordinates", .arr [.num 144, .num (-37)])])]

/-- A `GET /hazards` response of the documented shape `{ type, geojson }`. -/
def c1Cache : Js :=
  Js.obj [("type", .str "hazards"),
          ("geojson", .obj [("type", .str "FeatureCollection"),
                            ("features", .arr [c1Feature])])]

/-- An authenticated session holding a token, about to submit, with one
hazard already cached. -/
def c1State : AppState :=
  { drawPoint := true, lng := 143, lat := -37,
    hazardType := ⟨"FLOODED_ROAD", "Flooded Road"⟩,
    accessToken := some "token123", notes := "", data := c1Cache }

/-- The created-hazard representation returned by the `POST /hazards` call. -/
def c1ServerHazard : Js :=
  Js.obj [("id", .num 42), ("lat", .num (-37)), ("lng", .num 143),
          ("hazardType", .str "FLOODED_ROAD"), ("notes", .str "")]

/-- Reporting-mode state with a non-default category and non-empty notes. -/
def c2State : AppState :=
  { drawPoint := true, lng := 143, lat := -37,
    hazardType := ⟨"OTHER", "Other"⟩,
    accessToken := some "token123", notes := "debris on shoulder", data := Js.undefined }

/-- Reporting-mode state with non-empty notes, used for category selection. -/
def c3State : AppState :=
  { drawPoint := true, lng := 0, lat := 0,
    hazardType := ⟨"FLOODED_ROAD", "Flooded Road"⟩,
    accessToken := none, notes := "water over bridge", data := Js.undefined }

/-- A browsing-mode state for the unauthenticated toggle attempt. -/
def c4State : AppState :=
  { drawPoint := false, lng := 143, lat := -37,
    hazardType := ⟨"FLOODED_ROAD", "Flooded Road"⟩,
    accessToken := none, notes := "", data := Js.undefined }

/-- A reporting-mode state whose token fetch has not completed. -/
def c5State : AppState :=
  { drawPoint := true, lng := 143, lat := -37,
    hazardType := ⟨"TREE_DOWN", "Tree Down"⟩,
    accessToken := none, notes := "", data := Js.undefined }

/-- An arbitrary concrete component state for the viewport-change claims. -/
def c8State : AppState :=
  { drawPoint := false, lng := 143, lat := -37,
    hazardType := ⟨"FLOODED_ROAD", "Flooded Road"⟩,
    accessToken := none, notes := "", data := Js.undefined }

/-- Reporting-mode state already on category OTHER with prior notes. -/
def c9State : AppState :=
  { drawPoint := true, lng := 143, lat := -37,
    hazardType := ⟨"OTHER", "Other"⟩,
    accessToken := some "token123", notes := "prior notes", data := Js.undefined }

/-- Claim C1 (code bug): at a concrete authenticated submission, the
synchronous phase of `submitHazardForm` leaves the cached collection and the
rendered feature sequence unchanged (the `mutate` updater is async and no
`optimisticData` is given, so nothing is appended before the create request
resolves), and even once the request resolves the updater throws — it spreads
`data.features`, which is `undefined` on the documented `{ type, geojson }`
response shape — so the new hazard never becomes the last rendered feature. -/
theorem submit_has_no_optimistic_append :
    (submitHazardForm c1State).1.data = c1State.data ∧
    renderedFeatures (submitHazardForm c1State).1.data = renderedFeatures c1State.data ∧
    hazardsUpdater c1State.data c1ServerHazard = .error "TypeError: value is not iterable" ∧
    resolveHazardsMutation c1State.data c1ServerHazard = c1State.data ∧
    renderedFeatures (resolveHazardsMutation c1State.data c1ServerHazard) ≠
      renderedFeatures c1State.data ++ [c1ServerHazard] := by
  refine ⟨rfl, rfl, rfl, rfl, fun h => ?_⟩
  have hlen := congrArg List.length h
  simp [renderedFeatures, resolveHazardsMutation, hazardsUpdater, c1State, c1Cache,
    Js.getField, Js.spreadElems] at hlen

/-- Claim C2 counterexample: cancelling via Reset from a state whose category
is OTHER and whose notes are non-empty does not restore the FormState
defaults — `resetHazardForm` only clears `drawPoint`. -/
theorem reset_leaves_form_state :
    ¬ ((resetHazardForm c2State).hazardType.value = "FLOODED_ROAD" ∧
       (resetHazardForm c2State).notes = "") := by
  decide

/-- Claim C2 (amended): every exit from Reporting mode — cancel via Reset, or
the token-holding submit path — succeeds and sets `drawPoint` to false, but
leaves the FormState (`hazardType` and `notes`) unchanged rather than
resetting it to its default. -/
theorem exit_reporting_only_clears_draw_point (s : AppState) (t : String) :
    resetHazardForm s = { s with drawPoint := false } ∧
    (submitHazardForm { s with accessToken := some t }).1 =
      { s with accessToken := some t, drawPoint := false } :=
  ⟨rfl, rfl⟩

/-- Claim C3 counterexample: selecting the unknown value "LANDSLIDE" from a
state with non-empty notes changes the form state — the notes are cleared
before the lookup, so the handler is not a no-op on unknown values. -/
theorem unknown_selection_changes_notes :
    (handleHazardOptionSelected "LANDSLIDE" c3State).notes ≠ c3State.notes := by
  decide

/-- Claim C3 (amended): for every input value outside the fixed category set,
`handleHazardOptionSelected` never throws and leaves `hazardType` unchanged,
but it unconditionally clears `notes` to the empty string. -/
theorem unknown_selection_only_clears_notes (value : String) (s : AppState)
    (h : hazardOptions.find? (fun option => option.value == value) = none) :
    handleHazardOptionSelected value s = { s with notes := "" } := by
  simp [handleHazardOptionSelected, h]

/-- Claim C3 witness: the amended theorem applied at the unknown value
"LANDSLIDE" and a concrete state. -/
theorem unknown_selection_only_clears_notes_witness :
    hazardOptions.find? (fun option => option.value == "LANDSLIDE") = none ∧
    handleHazardOptionSelected "LANDSLIDE" c3State = { c3State with notes := "" } :=
  ⟨by decide, unknown_selection_only_clears_notes "LANDSLIDE" c3State (by decide)⟩

/-- Claim C4: attempting to enter report mode while unauthenticated leaves
the state untouched (drawPoint stays false, Browsing) and emits exactly one
warning toast. -/
theorem toggle_draw_point_unauthenticated (s : AppState) (h : s.drawPoint = false) :
    (toggleDrawPoint false s).1 = s ∧ (toggleDrawPoint false s).1.drawPoint = false ∧
    (toggleDrawPoint false s).2 = [Toast.error "Login to add a hazard."] :=
  ⟨rfl, h, rfl⟩

/-- Claim C4 witness: the theorem applied to a concrete browsing state. -/
theorem toggle_draw_point_unauthenticated_witness :
    c4State.drawPoint = false ∧
    ((toggleDrawPoint false c4State).1 = c4State ∧
     (toggleDrawPoint false c4State).1.drawPoint = false ∧
     (toggleDrawPoint false c4State).2 = [Toast.error "Login to add a hazard."]) :=
  ⟨rfl, toggle_draw_point_unauthenticated c4State rfl⟩

/-- Claim C5: submitting with no access token fails immediately — the state
is returned unchanged (drawPoint, form fields and cached collection
included), exactly one authentication error toast is shown, and no create
request is issued. -/
theorem submit_without_token_rejected (s : AppState) (h : s.accessToken = none) :
    submitHazardForm s = (s, [Toast.error "Login to add hazards."], none) := by
  simp [submitHazardForm, h]

/-- Claim C5 witness: the theorem applied to a concrete token-less state. -/
theorem submit_without_token_rejected_witness :
    c5State.accessToken = none ∧
    submitHazardForm c5State = (c5State, [Toast.error "Login to add hazards."], none) :=
  ⟨rfl, submit_without_token_rejected c5State rfl⟩

/-- Claim C6: when the click longitude and the feature longitude are more
than 180 degrees apart, the popup loop displays the feature longitude shifted
by an integer multiple of 360, landing within 180 degrees of the click. -/
theorem popup_lng_normalized (clickLng featureLng : ℚ)
    (h : 180 < |clickLng - featureLng|) :
    (∃ k : ℤ, normalizeLng clickLng featureLng = featureLng + 360 * k) ∧
    |clickLng - normalizeLng clickLng featureLng| ≤ 180 :=
  ⟨normalizeLng_add_int clickLng featureLng, normalizeLng_gap clickLng featureLng⟩

/-- Claim C6 witness: the theorem applied at click longitude 10 and feature
longitude 250, whose gap 240 exceeds 180. -/
theorem popup_lng_normalized_witness :
    180 < |(10:ℚ) - 250| ∧
    ((∃ k : ℤ, normalizeLng 10 250 = 250 + 360 * k) ∧
     |(10:ℚ) - normalizeLng 10 250| ≤ 180) :=
  ⟨by norm_num, popup_lng_normalized 10 250 (by norm_num)⟩

/-- Claim C7: the heatmap opacity expression interpolates over zoom with
stops exactly 1 at zoom 7 and 0 at the maximum configured heatmap zoom
level, which is 9 and is also the layer's maxzoom. -/
theorem heatmap_opacity_stops :
    heatmapLayer.paint.heatmapOpacity =
      PaintExpr.interpolateLinear .zoom [(7, .num 1), (MAX_HEATMAP_LEVEL, .num 0)] ∧
    MAX_HEATMAP_LEVEL = 9 ∧ heatmapLayer.maxzoom = MAX_HEATMAP_LEVEL :=
  ⟨rfl, rfl, rfl⟩

/-- Claim C8 counterexample: no reading of the component state can recover
the event's zoom after `updateMapCenterCoordinates` — two events differing
only in zoom produce identical states — although the spec-modelled
controller distinguishes them, so the handler does not overwrite the full
ViewState. -/
theorem viewport_change_drops_zoom :
    (¬ ∃ readZoom : AppState → ℚ, ∀ (e : ViewStateChangeEvent) (s : AppState),
        readZoom (updateMapCenterCoordinates e s) = e.viewState.zoom) ∧
    specOnViewportChange 1 2 5 ⟨0, 0, 0⟩ ≠ specOnViewportChange 1 2 10 ⟨0, 0, 0⟩ := by
  constructor
  · rintro ⟨readZoom, hread⟩
    have h1 := hread ⟨⟨1, 2, 5⟩⟩ c8State
    have h2 := hread ⟨⟨1, 2, 10⟩⟩ c8State
    have he : updateMapCenterCoordinates ⟨⟨1, 2, 5⟩⟩ c8State
        = updateMapCenterCoordinates ⟨⟨1, 2, 10⟩⟩ c8State := rfl
    rw [he] at h1
    rw [h1] at h2
    norm_num at h2
  · decide

/-- Claim C8 (amended): every viewport-change event unconditionally
overwrites the state's latitude and longitude with the event's values, with
no validation; zoom is not part of the component state and is not stored. -/
theorem viewport_change_overwrites_lat_lng (e : ViewStateChangeEvent) (s : AppState) :
    updateMapCenterCoordinates e s =
      { s with lat := e.viewState.latitude, lng := e.viewState.longitude } :=
  rfl

/-- Claim C9: selecting any valid hazard category leaves the notes empty
immediately afterwards, whatever they were before, and installs the selected
option (also when it equals the previous one). -/
theorem valid_selection_clears_notes (value : String) (s : AppState)
    (selected : SelectOption)
    (h : hazardOptions.find? (fun option => option.value == value) = some selected) :
    (handleHazardOptionSelected value s).notes = "" ∧
    (handleHazardOptionSelected value s).hazardType = selected := by
  simp [handleHazardOptionSelected, h]

/-- Claim C9 witness: reselecting OTHER over a state already on OTHER with
non-empty notes. -/
theorem valid_selection_clears_notes_witness :
    hazardOptions.find? (fun option => option.value == "OTHER") = some ⟨"OTHER", "Other"⟩ ∧
    ((handleHazardOptionSelected "OTHER" c9State).notes = "" ∧
     (handleHazardOptionSelected "OTHER" c9State).hazardType = ⟨"OTHER", "Other"⟩) :=
  ⟨by decide, valid_selection_clears_notes "OTHER" c9State ⟨"OTHER", "Other"⟩ (by decide)⟩
